import Mathlib

/-!
# Verification of the DNSMOS wrapper and dependency installer

A shallow embedding of `python_modules/dnsmos_wrapper/__init__.py` and
`install_python_deps.py` from the Publication_Spectral_Subtraction
repository, together with theorems settling the specification claims.

Modelling conventions:
* Python floats are modelled as rationals (`ℚ`); the claims under study are
  about dataflow and control flow, not rounding.
* A numpy audio array is either one-dimensional (mono) or two-dimensional
  with shape `(samples, channels)`, mirroring what `soundfile.read` returns.
* Fallible external calls (`sf.read`, `librosa.resample`, `sf.write`, the
  `ComputeScore` delegate) are oracles returning `Except String _`; an
  `Except.error` models the call raising an exception.
* Side effects (existence of the transient WAV file, invocations of the
  delegate, diagnostic printing) are recorded explicitly in the result of
  each embedded operation.
-/

/-- A numpy array as handed to the wrapper: `len(a.shape) == 1` is the
`mono` constructor, `len(a.shape) > 1` is the `multi` constructor whose
rows are sample frames and whose columns are channels. -/
inductive NpArray where
  | mono (samples : List ℚ)
  | multi (frames : List (List ℚ))
deriving DecidableEq, Repr

/-- `np.mean(a, axis=1)` on a two-dimensional array: for each sample frame,
the mean of that frame's channel values. -/
def npMeanAxis1 (frames : List (List ℚ)) : List ℚ :=
  frames.map (fun fr => fr.sum / (fr.length : ℚ))

/-- The mono-conversion step of both scoring operations:
`if len(audio.shape) > 1: audio = np.mean(audio, axis=1)`. -/
def monoOf : NpArray → List ℚ
  | NpArray.mono samples => samples
  | NpArray.multi frames => npMeanAxis1 frames

/-- An audio buffer together with the sample rate it is at.  For the output
of `librosa.resample(x, orig_sr=sr, target_sr=t)` the rate is `t`, which is
librosa's contract for resampling. -/
structure Wave where
  data : List ℚ
  rate : ℕ
deriving DecidableEq, Repr

/-- A resampling kernel: the abstract DSP computation inside
`librosa.resample` (arguments: buffer, `orig_sr`, `target_sr`); an
`Except.error` models `librosa.resample` raising. -/
def ResampleKernel : Type := List ℚ → ℕ → ℕ → Except String (List ℚ)

/-- The normalization performed by both scoring operations before
delegation: average multi-channel input to mono, then
`if sample_rate != 16000: audio = librosa.resample(audio, orig_sr=sample_rate,
target_sr=16000)`.  The resulting `Wave.rate` records the sample rate the
buffer is at. -/
def normalizeArr (resample : ResampleKernel) (arr : NpArray) (sr : ℕ) :
    Except String Wave :=
  let audio := monoOf arr
  if sr ≠ 16000 then
    (resample audio sr 16000).map (fun d => Wave.mk d 16000)
  else
    Except.ok (Wave.mk audio sr)

/-- The dictionary returned by the `ComputeScore` delegate, as an
association list from score names to values. -/
def ClipDict : Type := List (String × ℚ)

/-- The dict the scoring operations build on success: exactly the three
keys `SIG`, `BAK` and `OVRL`, each `float(...)`-coerced (identity on our
rational model of Python floats). -/
structure Scores where
  SIG : ℚ
  BAK : ℚ
  OVRL : ℚ
deriving DecidableEq, Repr

/-- The environment of external effects a scoring call runs against. -/
structure Env where
  /-- `sf.read(audio_path)`: decoded array and its native sample rate. -/
  decode : String → Except String (NpArray × ℕ)
  /-- the kernel inside `librosa.resample`. -/
  resample : ResampleKernel
  /-- `sf.write(name, data, samplerate)`. -/
  write : String → List ℚ → ℕ → Except String Unit
  /-- the `ComputeScore` delegate: `(path, sampling_rate, is_personalized_MOS)`. -/
  scorer : String → ℕ → Bool → Except String ClipDict
  /-- the name `tempfile.NamedTemporaryFile(suffix='.wav')` hands out. -/
  tmpName : String

/-- Observable outcome of one scoring call. -/
structure RunResult where
  /-- the Python return value: `some` scores dict or `none`. -/
  ret : Option Scores
  /-- whether the transient WAV file exists on disk after the call returns. -/
  tmpExists : Bool
  /-- the invocations of the `ComputeScore` delegate, with their arguments. -/
  scorerCalls : List (String × ℕ × Bool)
  /-- whether the `except` branch printed its diagnostic line. -/
  errorLogged : Bool
deriving DecidableEq, Repr

/-- The shared tail of both scoring operations, starting at
`tempfile.NamedTemporaryFile(suffix='.wav', delete=False)`: write the
normalized buffer at 16000 Hz, call `self.compute_score(tmp, 16000, False)`,
`os.unlink` the file, then extract `SIG`, `BAK`, `OVRL` with `float`
coercion.  `NamedTemporaryFile` creates the file, so after creation it
exists until the `os.unlink` line runs; because `delete=False`, leaving the
`with` block (normally or by exception) does not remove it.  Any exception
is caught by the surrounding `except Exception`, which prints a diagnostic
and returns `None`. -/
def scoreCore (env : Env) (w : Wave) : RunResult :=
  match env.write env.tmpName w.data 16000 with
  | Except.error _ =>
      -- `sf.write` raised: the file was created but never unlinked.
      RunResult.mk none true [] true
  | Except.ok _ =>
      match env.scorer env.tmpName 16000 false with
      | Except.error _ =>
          -- the delegate raised before `os.unlink` ran: the file remains.
          RunResult.mk none true [(env.tmpName, 16000, false)] true
      | Except.ok clip =>
          -- `os.unlink(tmp_file.name)` runs, then the three lookups.
          match clip.lookup "SIG", clip.lookup "BAK", clip.lookup "OVRL" with
          | some s, some b, some o =>
              RunResult.mk (some (Scores.mk s b o)) false
                [(env.tmpName, 16000, false)] false
          | _, _, _ =>
              -- a `KeyError` after unlink: caught, logged, `None` returned.
              RunResult.mk none false [(env.tmpName, 16000, false)] true

/-- `DNSMOSWrapper.calculate_dnsmos_from_array(audio_array, sample_rate)`:
mono conversion, conditional resampling to 16 kHz, then the shared
write/score/unlink/extract tail, all inside `try ... except Exception`. -/
def calculate_dnsmos_from_array (env : Env) (arr : NpArray) (sr : ℕ) :
    RunResult :=
  match normalizeArr env.resample arr sr with
  | Except.error _ =>
      -- `librosa.resample` raised before the temp file was created.
      RunResult.mk none false [] true
  | Except.ok w => scoreCore env w

/-- `DNSMOSWrapper.calculate_dnsmos(audio_path)`: decode with
`sf.read`, then the same normalization and scoring tail on the decoded
buffer at its native sample rate, all inside `try ... except Exception`. -/
def calculate_dnsmos (env : Env) (path : String) : RunResult :=
  match env.decode path with
  | Except.error _ => RunResult.mk none false [] true
  | Except.ok (arr, sr) =>
      match normalizeArr env.resample arr sr with
      | Except.error _ => RunResult.mk none false [] true
      | Except.ok w => scoreCore env w

/-- The argument of the module-level `dnsmos` entry point: either a file
path (`str`) or an audio array. -/
inductive AudioInput where
  | path (p : String)
  | array (a : NpArray)

/-- The module-level `dnsmos(audio_path_or_array, sample_rate=16000)`
entry point: dispatch on `isinstance(audio_path_or_array, str)`; the
`sample_rate` argument is forwarded only in the array case. -/
def dnsmos (env : Env) (input : AudioInput) (sample_rate : ℕ) : RunResult :=
  match input with
  | AudioInput.path p => calculate_dnsmos env p
  | AudioInput.array a => calculate_dnsmos_from_array env a sample_rate

/-! ## Module-level construction of the scorer (`dnsmos_wrapper` global) -/

/-- Process-wide state tracking how many times the underlying
`ComputeScore` object has been constructed. -/
structure ModuleState where
  computeScoreConstructions : ℕ
deriving DecidableEq, Repr

/-- `DNSMOSWrapper.__init__`: builds the two fixed model-artifact paths and
runs `ComputeScore(primary_model_path, p808_model_path)`, i.e. performs one
construction of the underlying scorer. -/
def DNSMOSWrapper.init (s : ModuleState) : ModuleState :=
  ModuleState.mk (s.computeScoreConstructions + 1)

/-- Importing the module executes its top level, whose last statement is
`dnsmos_wrapper = DNSMOSWrapper()`: the global wrapper (and with it the
`ComputeScore` object) is constructed right there, during import. -/
def moduleImport : ModuleState := DNSMOSWrapper.init (ModuleState.mk 0)

/-- One call of the module-level `dnsmos` entry point: it reads the global
`dnsmos_wrapper` and runs the scoring pipeline on it; neither
`calculate_dnsmos` nor `calculate_dnsmos_from_array` contains a
`ComputeScore(...)` or `DNSMOSWrapper()` construction, so the process state
is unchanged while the call's result is computed from the environment. -/
def dnsmosCall (s : ModuleState) (env : Env) (input : AudioInput)
    (sr : ℕ) : ModuleState × RunResult :=
  (s, dnsmos env input sr)

/-- Run a sequence of scoring calls against the process state. -/
def runCalls (env : Env) (s : ModuleState) :
    List (AudioInput × ℕ) → ModuleState
  | [] => s
  | (i, sr) :: rest => runCalls env (dnsmosCall s env i sr).1 rest

/-! ## The installer (`install_python_deps.py`) -/

/-- The environment the installer script runs against. -/
structure InstEnv where
  /-- `sys.version_info >= (3, 7)`. -/
  pythonOk : Bool
  /-- `check_pip()`: `python -m pip --version` succeeds. -/
  pipAvailable : Bool
  /-- `check_conda()`: `conda --version` succeeds. -/
  condaAvailable : Bool
  /-- `sys.executable`. -/
  pythonExe : String
  /-- whether the `subprocess.run(cmd, check=True)` for a package succeeds. -/
  installOk : String → Bool
  /-- `Path("python_modules/DNSMOS").exists()`. -/
  submoduleDirExists : Bool
  /-- `(dnsmos_dir / ".git").exists()`. -/
  submoduleGitExists : Bool
  /-- whether the final `import numpy, librosa, ...` test succeeds. -/
  importTestOk : Bool

/-- `install_package`: the command it hands to `subprocess.run`.  Under
conda: `conda install -y -c conda-forge <package>`; under pip:
`sys.executable -m pip install [--force-reinstall] <package>`. -/
def install_package_cmd (pythonExe package : String)
    (use_conda force : Bool) : List String :=
  if use_conda then
    ["conda", "install", "-y", "-c", "conda-forge", package]
  else
    [pythonExe, "-m", "pip", "install"]
      ++ (if force then ["--force-reinstall"] else []) ++ [package]

/-- `install_package`: runs the command; on `CalledProcessError` it prints
a `Failed to install` line and returns `False`, otherwise `True`.  The
returned Boolean is whether installation succeeded. -/
def install_package (env : InstEnv) (package : String)
    (_use_conda _force _verbose : Bool) : Bool :=
  env.installOk package

/-- `core_packages` from `main`. -/
def core_packages : List String :=
  ["numpy", "scipy", "librosa", "soundfile", "pandas", "tqdm"]

/-- `metrics_packages` from `main`. -/
def metrics_packages : List String :=
  ["pypesq", "onnxruntime"]

/-- `check_dnsmos_submodule()`: true when the submodule directory exists
and contains a `.git` entry. -/
def check_dnsmos_submodule (env : InstEnv) : Bool :=
  env.submoduleDirExists && env.submoduleGitExists

/-- Observable outcome of running the installer script. -/
structure InstResult where
  /-- the process exit code (`sys.exit(1)` or falling off the end of `main`). -/
  exitCode : ℕ
  /-- the packages for which `install_package` was invoked, in order. -/
  attempted : List String
  /-- the packages whose installation failed (each logged with an ERROR line). -/
  failedPackages : List String
  /-- whether `create_dnsmos_wrapper()` ran. -/
  wrapperCreated : Bool
deriving DecidableEq, Repr

/-- `main()`: check the Python version (`sys.exit(1)` if too old), check
the selected package manager (`sys.exit(1)` if absent), then attempt every
core and metrics package — individual failures are logged and ignored —
then the submodule check / wrapper creation and the import smoke test,
neither of which changes the exit code; falling off the end exits 0. -/
def installerMain (env : InstEnv) (use_conda force verbose : Bool) :
    InstResult :=
  if ¬ env.pythonOk then
    InstResult.mk 1 [] [] false
  else if use_conda ∧ ¬ env.condaAvailable then
    InstResult.mk 1 [] [] false
  else if ¬ use_conda ∧ ¬ env.pipAvailable then
    InstResult.mk 1 [] [] false
  else
    let pkgs := core_packages ++ metrics_packages
    let failed := pkgs.filter
      (fun p => ¬ install_package env p use_conda force verbose)
    InstResult.mk 0 pkgs failed (check_dnsmos_submodule env)

/-- Whether the package manager selected by `--conda` is absent. -/
def pmAbsent (env : InstEnv) (use_conda : Bool) : Bool :=
  if use_conda then ¬ env.condaAvailable else ¬ env.pipAvailable

/-! ## Concrete environments used in closed theorems -/

/-- A fully successful environment: everything decodes, resampling is the
identity kernel, writing succeeds, and the delegate returns the mapping
`{SIG: 3.5, BAK: 4.0, OVRL: 3.8}` of the specification's example. -/
def envStub : Env :=
  Env.mk
    (fun _ => Except.ok (NpArray.mono [0], 16000))
    (fun d _ _ => Except.ok d)
    (fun _ _ _ => Except.ok ())
    (fun _ _ _ => Except.ok [("SIG", 7/2), ("BAK", 4), ("OVRL", 19/5)])
    "tmp0001.wav"

/-- An environment identical to `envStub` except that the `ComputeScore`
delegate raises on every invocation. -/
def envScorerRaises : Env :=
  Env.mk
    (fun _ => Except.ok (NpArray.mono [0], 16000))
    (fun d _ _ => Except.ok d)
    (fun _ _ _ => Except.ok ())
    (fun _ _ _ => Except.error "onnxruntime failure")
    "tmp0001.wav"

/-! ## Failure characterisation used by claim C3 -/

/-- The score-extraction step raises (a `KeyError`) exactly when one of the
three keys is missing from the delegate's dictionary. -/
def extractionFails (clip : ClipDict) : Bool :=
  (clip.lookup "SIG").isNone || (clip.lookup "BAK").isNone
    || (clip.lookup "OVRL").isNone

/-- Whether some step of the scoring pipeline on an in-memory buffer
raises: resampling, writing the transient file, the delegate, or score
extraction. -/
def pipelineFails (env : Env) (arr : NpArray) (sr : ℕ) : Bool :=
  match normalizeArr env.resample arr sr with
  | Except.error _ => true
  | Except.ok w =>
      match env.write env.tmpName w.data 16000 with
      | Except.error _ => true
      | Except.ok _ =>
          match env.scorer env.tmpName 16000 false with
          | Except.error _ => true
          | Except.ok clip => extractionFails clip

/-- Whether some step of a file-path scoring call raises: audio decoding,
or the pipeline on the decoded buffer at its native rate. -/
def pathFails (env : Env) (p : String) : Bool :=
  match env.decode p with
  | Except.error _ => true
  | Except.ok (arr, nativeSr) => pipelineFails env arr nativeSr

/-- Whether some step of a `dnsmos` call raises: for a path input, audio
decoding or the pipeline on the decoded buffer at its native rate; for an
array input, the pipeline at the caller's rate. -/
def stepFails (env : Env) (input : AudioInput) (sr : ℕ) : Bool :=
  match input with
  | AudioInput.path p => pathFails env p
  | AudioInput.array arr => pipelineFails env arr sr

/-! ## Helper lemmas -/

lemma scoreCore_ret_isNone (env : Env) (w : Wave) :
    (scoreCore env w).ret.isNone
      = (match env.write env.tmpName w.data 16000 with
        | Except.error _ => true
        | Except.ok _ =>
            match env.scorer env.tmpName 16000 false with
            | Except.error _ => true
            | Except.ok clip => extractionFails clip) := by
  unfold scoreCore
  cases hw : env.write env.tmpName w.data 16000 with
  | error e => simp
  | ok u =>
      cases hs : env.scorer env.tmpName 16000 false with
      | error e => simp
      | ok clip =>
          cases h1 : clip.lookup "SIG" <;> cases h2 : clip.lookup "BAK" <;>
            cases h3 : clip.lookup "OVRL" <;>
              simp [extractionFails, h1, h2, h3]

lemma scoreCore_errorLogged (env : Env) (w : Wave) :
    (scoreCore env w).errorLogged
      = (match env.write env.tmpName w.data 16000 with
        | Except.error _ => true
        | Except.ok _ =>
            match env.scorer env.tmpName 16000 false with
            | Except.error _ => true
            | Except.ok clip => extractionFails clip) := by
  unfold scoreCore
  cases hw : env.write env.tmpName w.data 16000 with
  | error e => simp
  | ok u =>
      cases hs : env.scorer env.tmpName 16000 false with
      | error e => simp
      | ok clip =>
          cases h1 : clip.lookup "SIG" <;> cases h2 : clip.lookup "BAK" <;>
            cases h3 : clip.lookup "OVRL" <;>
              simp [extractionFails, h1, h2, h3]

lemma from_array_fails_iff (env : Env) (arr : NpArray) (sr : ℕ) :
    (calculate_dnsmos_from_array env arr sr).ret.isNone
        = pipelineFails env arr sr
    ∧ (calculate_dnsmos_from_array env arr sr).errorLogged
        = pipelineFails env arr sr := by
  unfold calculate_dnsmos_from_array pipelineFails
  cases normalizeArr env.resample arr sr with
  | error e => exact ⟨rfl, rfl⟩
  | ok w => exact ⟨scoreCore_ret_isNone env w, scoreCore_errorLogged env w⟩

lemma path_fails_iff (env : Env) (p : String) :
    (calculate_dnsmos env p).ret.isNone = pathFails env p
    ∧ (calculate_dnsmos env p).errorLogged = pathFails env p := by
  unfold calculate_dnsmos pathFails
  cases hd : env.decode p with
  | error e => exact ⟨rfl, rfl⟩
  | ok pair =>
      cases pair with
      | mk arr nativeSr =>
          dsimp only
          unfold pipelineFails
          cases hn : normalizeArr env.resample arr nativeSr with
          | error e => exact ⟨rfl, rfl⟩
          | ok w =>
              exact ⟨scoreCore_ret_isNone env w, scoreCore_errorLogged env w⟩

lemma scoreCore_calls (env : Env) (w : Wave) :
    (scoreCore env w).scorerCalls = []
    ∨ (scoreCore env w).scorerCalls = [(env.tmpName, 16000, false)] := by
  unfold scoreCore
  cases hw : env.write env.tmpName w.data 16000 with
  | error e => exact Or.inl rfl
  | ok u =>
      cases hs : env.scorer env.tmpName 16000 false with
      | error e => exact Or.inr rfl
      | ok clip =>
          cases h1 : clip.lookup "SIG" <;> cases h2 : clip.lookup "BAK" <;>
            cases h3 : clip.lookup "OVRL" <;>
              simp [h1, h2, h3]

lemma runCalls_preserves (env : Env) (s : ModuleState)
    (calls : List (AudioInput × ℕ)) : runCalls env s calls = s := by
  induction calls generalizing s with
  | nil => rfl
  | cons c rest ih => cases c with | mk i sr => exact ih s

/-! ## Spec-side definition for claim C5 -/

/-- Modelled from the spec's words for the refinement comparison of claim
C5: the elementwise mean across channels — for each sample index, the mean
of that sample's values over all channels. -/
def specChannelMean (frames : List (List ℚ)) : List ℚ :=
  frames.map (fun channelValues => channelValues.sum / (channelValues.length : ℚ))

/-! ## Claim theorems -/

/-- Claim C1 (code_bug evaluation): with a delegate that raises, the
transient WAV file still exists on disk after the scoring call returns —
`os.unlink` sits after the `compute_score` call inside the `with` block
(opened with `delete=False`), so when the delegate raises, the exception
jumps to the `except` handler and the unlink never runs.  The claim (and
the spec's scoped-resource contract) demands the file be gone on the
failure path as well; the code violates it for both the array form and the
file-path form. -/
theorem tmp_file_leaks_when_scorer_raises :
    calculate_dnsmos_from_array envScorerRaises (NpArray.mono [0]) 16000
      = RunResult.mk none true [("tmp0001.wav", 16000, false)] true
    ∧ (calculate_dnsmos envScorerRaises "clip.wav").tmpExists = true := by
  constructor <;> rfl

/-- Claim C2 (counterexample): the claim says the scorer is constructed
lazily, on the first call to the scoring operation; were that so, after
module import and before any scoring call zero `ComputeScore`
constructions would have happened.  In fact the module top level runs
`dnsmos_wrapper = DNSMOSWrapper()` during import, so exactly one
construction has already happened with no scoring call made. -/
theorem scorer_not_constructed_lazily :
    ¬ moduleImport.computeScoreConstructions = 0 := by
  decide

/-- Claim C2 (amended): the scorer is constructed exactly once per
process, eagerly at module import, and every subsequent scoring call
reuses that instance — after any sequence of `dnsmos` calls the number of
`ComputeScore` constructions is still exactly one; in particular calling
the scoring operation twice never reconstructs it. -/
theorem scorer_constructed_once (env : Env)
    (calls : List (AudioInput × ℕ)) :
    (runCalls env moduleImport calls).computeScoreConstructions = 1 := by
  rw [runCalls_preserves]
  decide

/-- Claim C3: the scoring operation never propagates an exception (both
embedded operations are total functions into `RunResult`), and it returns
`None` with the diagnostic line printed exactly when some step of the run
fails — decoding, resampling, writing the transient file, the delegate
raising, or score extraction — as characterised by `stepFails`. -/
theorem failures_return_none_and_log (env : Env) (input : AudioInput)
    (sr : ℕ) :
    (dnsmos env input sr).ret.isNone = stepFails env input sr
    ∧ (dnsmos env input sr).errorLogged = stepFails env input sr := by
  cases input with
  | path p => exact path_fails_iff env p
  | array arr => exact from_array_fails_iff env arr sr

/-- Claim C4: (i) at the native rate 16000 no resampling is performed and
the already-mono buffer is passed on unchanged — the result does not
depend on the resampling kernel at all; (ii) for every sample rate, the
normalized buffer (whenever normalization succeeds) is at 16000 Hz; (iii)
the array-form scoring operation hands exactly that unchanged buffer to
the delegation tail when the input is already at 16000 Hz. -/
theorem normalized_buffer_at_16k (env : Env) (r : ResampleKernel)
    (arr : NpArray) (sr : ℕ) :
    normalizeArr r arr 16000 = Except.ok (Wave.mk (monoOf arr) 16000)
    ∧ (normalizeArr r arr sr).map Wave.rate
        = (normalizeArr r arr sr).map (fun _ => 16000)
    ∧ calculate_dnsmos_from_array env arr 16000
        = scoreCore env (Wave.mk (monoOf arr) 16000) := by
  refine ⟨by simp [normalizeArr], ?_, ?_⟩
  · unfold normalizeArr
    by_cases h : sr = 16000
    · simp [h, Except.map]
    · cases hr : r (monoOf arr) sr 16000 with
      | error e => simp [h, hr, Except.map]
      | ok d => simp [h, hr, Except.map]
  · unfold calculate_dnsmos_from_array
    simp [normalizeArr]

/-- Claim C5: for every multi-channel buffer, the mono buffer the scoring
operations use (`np.mean(audio, axis=1)`) equals the elementwise mean
across channels, and — determinism being immediate since the embedded
operation is a function — that is exactly the buffer normalization
produces for a 16 kHz multi-channel input. -/
theorem mono_is_channel_mean (r : ResampleKernel)
    (frames : List (List ℚ)) :
    monoOf (NpArray.multi frames) = specChannelMean frames
    ∧ normalizeArr r (NpArray.multi frames) 16000
        = Except.ok (Wave.mk (specChannelMean frames) 16000) := by
  constructor
  · rfl
  · simp [normalizeArr, monoOf, npMeanAxis1, specChannelMean]

/-- Claim C6: whenever the delegate returns a dictionary containing the
keys `SIG`, `BAK` and `OVRL`, the scoring operation returns the
three-field score record holding exactly the delegate's corresponding
values (float coercion being the identity on the rational model); this
holds for the array form and, whenever decoding yields the same buffer,
for the file-path form as well. -/
theorem scores_extracted (env : Env) (arr : NpArray) (sr : ℕ) (w : Wave)
    (clip : ClipDict) (s b o : ℚ)
    (hn : normalizeArr env.resample arr sr = Except.ok w)
    (hw : env.write env.tmpName w.data 16000 = Except.ok ())
    (hs : env.scorer env.tmpName 16000 false = Except.ok clip)
    (h1 : clip.lookup "SIG" = some s)
    (h2 : clip.lookup "BAK" = some b)
    (h3 : clip.lookup "OVRL" = some o) :
    (calculate_dnsmos_from_array env arr sr).ret
      = some (Scores.mk s b o)
    ∧ ∀ p, env.decode p = Except.ok (arr, sr) →
        (calculate_dnsmos env p).ret = some (Scores.mk s b o) := by
  have hcore : (scoreCore env w).ret = some (Scores.mk s b o) := by
    unfold scoreCore
    rw [hw]
    dsimp only
    rw [hs]
    dsimp only
    rw [h1, h2, h3]
  constructor
  · unfold calculate_dnsmos_from_array
    rw [hn]
    exact hcore
  · intro p hp
    unfold calculate_dnsmos
    rw [hp]
    dsimp only
    rw [hn]
    exact hcore

/-- Claim C6 witness: against the all-success stub environment whose
delegate returns `{SIG: 3.5, BAK: 4.0, OVRL: 3.8}`, the scoring operation
returns exactly those three values. -/
theorem scores_extracted_witness :
    (calculate_dnsmos_from_array envStub (NpArray.mono [0]) 16000).ret
      = some (Scores.mk (7/2) 4 (19/5)) :=
  (scores_extracted envStub (NpArray.mono [0]) 16000
    (Wave.mk [0] 16000) [("SIG", 7/2), ("BAK", 4), ("OVRL", 19/5)]
    (7/2) 4 (19/5) rfl rfl rfl rfl rfl rfl).1

/-- Claim C7: the installer's exit code and installation attempts — when
the Python version check passes and the selected package manager (conda
under `--conda`, pip otherwise) is present, the exit code is 0 and every
core and metrics package is attempted; otherwise the script exits with
code 1 having attempted no package installation.  Moreover the exit code
does not depend on which individual package installations succeed:
replacing the per-package success oracle leaves it unchanged. -/
theorem installer_exit_code (env : InstEnv)
    (use_conda force verbose : Bool) (g : String → Bool) :
    (installerMain env use_conda force verbose).exitCode
      = (if env.pythonOk ∧ ¬ pmAbsent env use_conda then 0 else 1)
    ∧ (installerMain env use_conda force verbose).attempted
      = (if env.pythonOk ∧ ¬ pmAbsent env use_conda
          then core_packages ++ metrics_packages else [])
    ∧ (installerMain
        (InstEnv.mk env.pythonOk env.pipAvailable env.condaAvailable
          env.pythonExe g env.submoduleDirExists env.submoduleGitExists
          env.importTestOk) use_conda force verbose).exitCode
      = (installerMain env use_conda force verbose).exitCode := by
  unfold installerMain pmAbsent
  cases hpy : env.pythonOk <;> cases use_conda <;>
    cases hc : env.condaAvailable <;> cases hp : env.pipAvailable <;>
      simp

/-- Claim C8: when the module-level scoring entry point is called with a
file path, the result is independent of the `sample_rate` argument — any
two values yield the same outcome — because the call is routed to
`calculate_dnsmos`, which uses the sample rate decoded from the file. -/
theorem path_ignores_sample_rate (env : Env) (p : String)
    (sr1 sr2 : ℕ) :
    dnsmos env (AudioInput.path p) sr1 = dnsmos env (AudioInput.path p) sr2
    ∧ dnsmos env (AudioInput.path p) sr1 = calculate_dnsmos env p :=
  ⟨rfl, rfl⟩

/-- Claim C9: on every scoring invocation, either delegation is never
reached, or the delegate is called exactly once with exactly the arguments
(transient file path, 16000, False) — the declared sampling rate and the
personalized-MOS flag never depend on the caller's input or sample
rate. -/
theorem scorer_args_fixed (env : Env) (input : AudioInput) (sr : ℕ) :
    (dnsmos env input sr).scorerCalls = []
    ∨ (dnsmos env input sr).scorerCalls = [(env.tmpName, 16000, false)] := by
  cases input with
  | path p =>
      show (calculate_dnsmos env p).scorerCalls = []
        ∨ (calculate_dnsmos env p).scorerCalls
            = [(env.tmpName, 16000, false)]
      unfold calculate_dnsmos
      cases hd : env.decode p with
      | error e => exact Or.inl rfl
      | ok pair =>
          cases pair with
          | mk arr nativeSr =>
              dsimp only
              cases hn : normalizeArr env.resample arr nativeSr with
              | error e => exact Or.inl rfl
              | ok w => exact scoreCore_calls env w
  | array arr =>
      show (calculate_dnsmos_from_array env arr sr).scorerCalls = []
        ∨ (calculate_dnsmos_from_array env arr sr).scorerCalls
            = [(env.tmpName, 16000, false)]
      unfold calculate_dnsmos_from_array
      cases hn : normalizeArr env.resample arr sr with
      | error e => exact Or.inl rfl
      | ok w => exact scoreCore_calls env w

/-- Claim C10: under conda mode the force-reinstall flag has no effect on
the constructed installation command — for every package the command is
`conda install -y -c conda-forge <package>` whether force is set or
not. -/
theorem conda_cmd_ignores_force (exe pkg : String) (f1 f2 : Bool) :
    install_package_cmd exe pkg true f1 = install_package_cmd exe pkg true f2
    ∧ install_package_cmd exe pkg true f1
        = ["conda", "install", "-y", "-c", "conda-forge", pkg] :=
  ⟨rfl, rfl⟩
